import Mathlib

/-
Shallow embedding of the gtasks-manager repository (a CLI/TUI client for a
remote task service), covering the pieces the verified claims are about:

* core/models.py      : TaskStatus, Task, mark_complete / mark_incomplete
* core/task_cache.py  : TaskCache (index-to-ID reference cache), get_task_id, update
* core/services.py    : TaskService reference resolution and list_tasks
* adapters/google_tasks.py : GoogleTasksAdapter.list_tasks request/translation shape
* adapters/utils.py   : execute_with_retry (retry/backoff and error translation)
* tui/app.py          : optimistic toggle, background persist, revert

Python dicts keyed by int are modelled as association lists (List (Int x String))
with List.lookup; datetimes are abstract Nat timestamps supplied as an explicit
`now` argument wherever the source calls datetime.utcnow(); Python ints are Int.
-/

namespace GTasks

/-- Completion status of a task (core/models.py, class TaskStatus). -/
inductive TaskStatus where
  | needsAction
  | completed
  deriving DecidableEq, Repr, BEq

/-- A single todo item (core/models.py, dataclass Task), field for field.
Timestamps (`updated`, `due`, `completed`) are abstract Nat instants. -/
structure Task where
  id : String
  title : String
  status : TaskStatus
  list_id : String
  updated : Option Nat
  notes : Option String
  due : Option Nat
  completed : Option Nat
  deriving DecidableEq, Repr, BEq

/-- A caller-supplied task reference: either a durable ID string or a 1-based
display index (core/models.py, TaskReference = Union[str, int]). -/
abbrev TaskReference := String ⊕ Int

/-- Python str(reference): a string reference unchanged, an int rendered in
decimal (with leading minus sign for negatives, as in Python). -/
def refStr (ref : TaskReference) : String :=
  match ref with
  | Sum.inl s => s
  | Sum.inr i => toString i

/-- The reference cache (core/task_cache.py, dataclass TaskCache): two
partitions mapping display index to task ID, plus a last-updated timestamp.
The Python dicts are modelled as association lists in insertion order. -/
structure TaskCache where
  active_tasks : List (Int × String)
  completed_tasks : List (Int × String)
  last_updated : Nat
  deriving DecidableEq, Repr

/-- TaskCache.get_task_id (core/task_cache.py lines 16-22): a string reference
is returned unchanged; an int reference is looked up in the partition selected
by `completed` (the Python parameter defaults to False). -/
def TaskCache.get_task_id (c : TaskCache) (ref : TaskReference) (completed : Bool) :
    Option String :=
  match ref with
  | Sum.inl s => some s
  | Sum.inr i =>
      let cache := if completed then c.completed_tasks else c.active_tasks
      cache.lookup i

/-- TaskCache.update (core/task_cache.py lines 24-35): rebuild the partition
selected by `completed` from scratch, assigning indices 1..n to the tasks in
list order (Python enumerate(tasks, start=1)); set last_updated to now. -/
def TaskCache.update (c : TaskCache) (tasks : List Task) (completed : Bool) (now : Nat) :
    TaskCache :=
  let cache := (List.enumFrom 1 tasks).map (fun p => ((p.1 : Int), p.2.id))
  if completed then
    { c with completed_tasks := cache, last_updated := now }
  else
    { c with active_tasks := cache, last_updated := now }

/-- The shared three-line resolution block of TaskService.get_task,
update_task, delete_task and complete_task (core/services.py lines 28-31,
50-52, 57-59, 64-66):

  task_id = self.cache.get_task_id(reference)   -- completed defaults to False
  if not task_id:
      task_id = str(reference)

Python truthiness: both None and the empty string count as falsy. -/
def fallbackResolve (cache : TaskCache) (ref : TaskReference) : String :=
  match cache.get_task_id ref false with
  | none => refStr ref
  | some tid => if tid = "" then refStr ref else tid

/-- The (list_id, task_id) argument pair a TaskService mutation hands to the
remote adapter. -/
structure AdapterCall where
  list_id : String
  task_id : String
  deriving DecidableEq, Repr

/-- TaskService.get_task (core/services.py lines 26-32): resolve, then call
api.get_task(list_id, task_id); we record the adapter call issued. -/
def TaskService.get_task (cache : TaskCache) (list_id : String) (ref : TaskReference) :
    AdapterCall :=
  { list_id := list_id, task_id := fallbackResolve cache ref }

/-- TaskService.update_task (core/services.py lines 40-53): resolve, then call
api.update_task(list_id, task_id, ...); we record the adapter call issued. -/
def TaskService.update_task (cache : TaskCache) (list_id : String) (ref : TaskReference) :
    AdapterCall :=
  { list_id := list_id, task_id := fallbackResolve cache ref }

/-- TaskService.delete_task (core/services.py lines 55-60): resolve, then call
api.delete_task(list_id, task_id); we record the adapter call issued. -/
def TaskService.delete_task (cache : TaskCache) (list_id : String) (ref : TaskReference) :
    AdapterCall :=
  { list_id := list_id, task_id := fallbackResolve cache ref }

/-- TaskService.complete_task (core/services.py lines 62-67): resolve, then
call api.complete_task(list_id, task_id); we record the adapter call issued. -/
def TaskService.complete_task (cache : TaskCache) (list_id : String) (ref : TaskReference) :
    AdapterCall :=
  { list_id := list_id, task_id := fallbackResolve cache ref }

/-- TaskService.list_tasks (core/services.py lines 20-24): call the adapter
(modelled as a function from (list_id, show_completed) to the listing), then
update the cache partition selected by show_completed, then return the tasks
unchanged together with the new cache state. -/
def TaskService.list_tasks (api : String → Bool → List Task) (cache : TaskCache)
    (list_id : String) (show_completed : Bool) (now : Nat) : List Task × TaskCache :=
  let tasks := api list_id show_completed
  let cache2 := cache.update tasks show_completed now
  (tasks, cache2)

/-- Task.mark_complete (core/models.py lines 57-61): if the status is not
COMPLETED, set it to COMPLETED and stamp the completion time; otherwise do
nothing. -/
def Task.mark_complete (t : Task) (now : Nat) : Task :=
  if t.status ≠ TaskStatus.completed then
    { t with status := TaskStatus.completed, completed := some now }
  else t

/-- Task.mark_incomplete (core/models.py lines 63-67): if the status is not
NEEDS_ACTION, set it to NEEDS_ACTION and clear the completion time; otherwise
do nothing. -/
def Task.mark_incomplete (t : Task) : Task :=
  if t.status ≠ TaskStatus.needsAction then
    { t with status := TaskStatus.needsAction, completed := none }
  else t

/-- The spec invariant "completion timestamp present iff status is COMPLETED",
as a decidable check on one task. -/
def completedInv (t : Task) : Bool :=
  t.completed.isSome == (t.status == TaskStatus.completed)

/-- The optimistic in-memory rewrite inside TasksApp._toggle_completion
(tui/app.py lines 213-242): rebuild the task list, giving the task(s) whose id
equals the selected id the flipped status and copying every field of every
task explicitly, exactly as the source constructs new Task(...) records. -/
def optimisticUpdate (tasks : List Task) (selected_task_id : String)
    (new_status : TaskStatus) : List Task :=
  tasks.map (fun t =>
    if t.id = selected_task_id then
      { id := t.id, title := t.title, status := new_status, list_id := t.list_id,
        updated := t.updated, notes := t.notes, due := t.due, completed := t.completed }
    else
      { id := t.id, title := t.title, status := t.status, list_id := t.list_id,
        updated := t.updated, notes := t.notes, due := t.due, completed := t.completed })

/-- TasksApp._revert_toggle (tui/app.py lines 257-261): find the first task
with the given id (Python next(...) over the list) and set its status back to
old_status in place; every other field and every other task is untouched. -/
def revertToggle (tasks : List Task) (task_id : String) (old_status : TaskStatus) :
    List Task :=
  match tasks with
  | [] => []
  | t :: rest =>
      if t.id = task_id then { t with status := old_status } :: rest
      else t :: revertToggle rest task_id old_status

/-- The parameter names of TaskService.update_task's Python signature
(core/services.py lines 40-48): self, list_id, reference, title, notes, due,
status. There is no **kwargs catch-all. -/
def updateTaskParams : List String :=
  ["self", "list_id", "reference", "title", "notes", "due", "status"]

/-- The keyword arguments TasksApp._persist_toggle passes to
service.update_task (tui/app.py lines 250-252): status=new_status,
completed_cache=False. -/
def persistToggleKeywordArgs : List String :=
  ["status", "completed_cache"]

/-- Python call semantics for keyword arguments: a call raises TypeError
unless every keyword argument passed names a parameter of the callee's
signature (no **kwargs here). -/
def keywordsAccepted (params passed : List String) : Bool :=
  passed.all (fun k => params.contains k)

/-- Outcome of the background persist step. -/
inductive PersistResult where
  | remoteUpdated
  | reverted
  deriving DecidableEq, Repr

/-- TasksApp._persist_toggle (tui/app.py lines 245-255): try the
service.update_task call; if Python rejects the keyword arguments (TypeError)
or the call fails, the except-handler calls _revert_toggle; on success the
remote update stands. -/
def persistToggle (tasks : List Task) (task_id : String) (old_status : TaskStatus) :
    List Task × PersistResult :=
  if keywordsAccepted updateTaskParams persistToggleKeywordArgs then
    (tasks, PersistResult.remoteUpdated)
  else
    (revertToggle tasks task_id old_status, PersistResult.reverted)

/-- TasksApp._toggle_completion (tui/app.py lines 198-243) followed by the
resolution of its _persist_toggle worker: bail out when nothing is selected or
the selected id is not in the list; otherwise flip the status optimistically
and run the persist step (which reverts when the update_task call raises). -/
def toggleCompletion (tasks : List Task) (selected_task_id : Option String) :
    List Task :=
  match selected_task_id with
  | none => tasks
  | some sid =>
      match tasks.find? (fun t => t.id == sid) with
      | none => tasks
      | some task =>
          let old_status := task.status
          let new_status :=
            if old_status = TaskStatus.needsAction then TaskStatus.completed
            else TaskStatus.needsAction
          let updated_tasks := optimisticUpdate tasks sid new_status
          (persistToggle updated_tasks task.id old_status).1

/-- One page of the remote tasks listing: the item ids in order plus the
optional nextPageToken of the raw response. -/
structure TasksPage where
  items : List String
  nextPageToken : Option String
  deriving DecidableEq, Repr

/-- Result of the adapter's list_tasks after error translation. -/
inductive AdapterListResult where
  | ok (items : List String)
  | notFoundError
  | apiError
  deriving DecidableEq, Repr

/-- GoogleTasksAdapter.list_tasks (adapters/google_tasks.py lines 79-109).
The remote is modelled as the sequence of responses it would serve: the first
response (a page, or an HttpError status) and the responses any further
requests would get. The source issues exactly one tasks().list().execute()
call and returns that response's items; it never reads nextPageToken and
never issues a second request, so later responses are unused. On HttpError it
raises NotFoundError for 404 and APIError otherwise, without retrying. -/
def GoogleTasksAdapter.list_tasks (response : Except Nat TasksPage)
    (_later_responses : List (Except Nat TasksPage)) : AdapterListResult × Nat :=
  match response with
  | Except.ok page => (AdapterListResult.ok page.items, 1)
  | Except.error status =>
      (if status = 404 then AdapterListResult.notFoundError else AdapterListResult.apiError, 1)

/-- What one attempted request_func().execute() does: return normally, raise
HttpError with a status, or raise some other exception. -/
inductive HttpOutcome where
  | ok
  | httpError (status : Nat)
  | otherFailure
  deriving DecidableEq, Repr

/-- Result of execute_with_retry after error translation
(core/exceptions taxonomy). -/
inductive RetryOutcome where
  | ok
  | authenticationError
  | notFoundError
  | validationError
  | rateLimitError
  | apiError
  deriving DecidableEq, Repr

/-- The loop body of execute_with_retry (adapters/utils.py lines 16-47).
`req` gives the outcome of the attempt-numbered request; `remaining` is the
number of attempts still allowed after this one (so remaining = 0 exactly
when attempt == max_retries). Returns the translated outcome, the number of
requests issued, and the deterministic parts (2^attempt seconds) of the
backoff sleeps performed; the 0.1-bounded random jitter is not modelled. -/
def retryLoop (req : Nat → HttpOutcome) (attempt remaining : Nat) :
    RetryOutcome × Nat × List Nat :=
  match req attempt with
  | HttpOutcome.ok => (RetryOutcome.ok, 1, [])
  | HttpOutcome.otherFailure => (RetryOutcome.apiError, 1, [])
  | HttpOutcome.httpError status =>
      if status = 401 ∨ status = 403 then (RetryOutcome.authenticationError, 1, [])
      else if status = 404 then (RetryOutcome.notFoundError, 1, [])
      else if status = 400 then (RetryOutcome.validationError, 1, [])
      else if status = 429 ∨ 500 ≤ status then
        match remaining with
        | 0 =>
            (if status = 429 then RetryOutcome.rateLimitError else RetryOutcome.apiError, 1, [])
        | r + 1 =>
            let rest := retryLoop req (attempt + 1) r
            (rest.1, rest.2.1 + 1, 2 ^ attempt :: rest.2.2)
      else (RetryOutcome.apiError, 1, [])

/-- execute_with_retry (adapters/utils.py lines 16-47): run the attempt loop
starting at attempt 0 with max_retries further attempts allowed (the Python
default is max_retries = 3). -/
def execute_with_retry (req : Nat → HttpOutcome) (max_retries : Nat) :
    RetryOutcome × Nat × List Nat :=
  retryLoop req 0 max_retries

/-- A concrete task used to instantiate witnesses: all optional fields absent,
status NEEDS_ACTION. -/
def sampleTask (idStr : String) : Task :=
  { id := idStr, title := "t", status := TaskStatus.needsAction, list_id := "L1",
    updated := none, notes := none, due := none, completed := none }

/-- Overwrite just the status field; mapping this over two lists and comparing
erases status and compares every other field. -/
def withStatus (t : Task) (s : TaskStatus) : Task :=
  { t with status := s }

/-- Looking up an integer key in the association list built from a listing by
enumeration starting at k returns the id of the task at offset i - k, and
nothing for keys below k or past the end. -/
theorem lookup_enumFrom_map (ts : List Task) (k : Nat) (i : Int) :
    List.lookup i ((List.enumFrom k ts).map (fun p => ((p.1 : Int), p.2.id))) =
      if (k : Int) ≤ i then (ts[(i - k).toNat]?).map Task.id else none := by
  induction ts generalizing k with
  | nil =>
    simp [List.enumFrom]
  | cons t rest ih =>
    simp only [List.enumFrom, List.map]
    by_cases h : i = (k : Int)
    · subst h
      simp [List.lookup]
    · have hbeq : (i == (k : Int)) = false := by simp [h]
      rw [List.lookup, hbeq]
      simp only []
      rw [ih (k + 1)]
      rcases le_or_lt (k : Int) i with hle | hlt
      · have hk1 : ((k + 1 : Nat) : Int) ≤ i := by push_cast; omega
        have hm : (i - (k : Int)).toNat = (i - ((k + 1 : Nat) : Int)).toNat + 1 := by
          push_cast
          omega
        rw [if_pos hk1, if_pos hle, hm, List.getElem?_cons_succ]
      · have hk1 : ¬ ((k + 1 : Nat) : Int) ≤ i := by push_cast; omega
        rw [if_neg hk1, if_neg (by omega)]

/-- Resolution against the partition just rebuilt by update, in closed form. -/
theorem get_task_id_update (c : TaskCache) (L : List Task) (p : Bool) (now : Nat) (i : Int) :
    (c.update L p now).get_task_id (Sum.inr i) p =
      if (1 : Int) ≤ i then (L[(i - 1).toNat]?).map Task.id else none := by
  have h := lookup_enumFrom_map L 1 i
  norm_num at h
  cases p <;> simp only [TaskCache.update, TaskCache.get_task_id] <;> simpa using h

/-- In-range indices resolve to the listed task's id after update. -/
theorem get_task_id_update_inRange (c : TaskCache) (L : List Task) (p : Bool) (now : Nat)
    (i : Int) (h1 : 1 ≤ i) (h2 : i ≤ (L.length : Int)) :
    (c.update L p now).get_task_id (Sum.inr i) p =
      some ((L.get ⟨(i - 1).toNat, by omega⟩).id) := by
  rw [get_task_id_update, if_pos h1]
  have hlt : (i - 1).toNat < L.length := by omega
  rw [List.getElem?_eq_getElem hlt]
  simp [List.get_eq_getElem]

/-- Out-of-range indices resolve to nothing after update. -/
theorem get_task_id_update_outRange (c : TaskCache) (L : List Task) (p : Bool) (now : Nat)
    (i : Int) (h : i < 1 ∨ (L.length : Int) < i) :
    (c.update L p now).get_task_id (Sum.inr i) p = none := by
  rw [get_task_id_update]
  rcases h with h | h
  · rw [if_neg (by omega)]
  · rw [if_pos (by omega)]
    have hle : L.length ≤ (i - 1).toNat := by omega
    rw [List.getElem?_eq_none hle]
    rfl

/-- C1: for every partition p and listing L of n tasks, after
TaskCache.update(L, p) the cache resolves integer index i to the id of
L[i-1] for every i in 1..n, and to None for every integer outside 1..n;
indices are assigned 1..n in the order of L with no independent sort. -/
theorem c1_update_resolves_indices (c : TaskCache) (L : List Task) (p : Bool) (now : Nat) :
    (∀ (i : Int) (h1 : 1 ≤ i) (h2 : i ≤ (L.length : Int)),
      (c.update L p now).get_task_id (Sum.inr i) p =
        some ((L.get ⟨(i - 1).toNat, by omega⟩).id)) ∧
    (∀ i : Int, i < 1 ∨ (L.length : Int) < i →
      (c.update L p now).get_task_id (Sum.inr i) p = none) :=
  ⟨fun i h1 h2 => get_task_id_update_inRange c L p now i h1 h2,
   fun i h => get_task_id_update_outRange c L p now i h⟩

/-- Witness for C1: a concrete two-task listing, index 2 resolves to the
second id and index 3 resolves to nothing. -/
theorem c1_update_resolves_indices_witness :
    ((TaskCache.mk [] [] 0).update [sampleTask "T1", sampleTask "T2"] false 7).get_task_id
        (Sum.inr 2) false = some "T2" ∧
    ((TaskCache.mk [] [] 0).update [sampleTask "T1", sampleTask "T2"] false 7).get_task_id
        (Sum.inr 3) false = none :=
  ⟨(c1_update_resolves_indices (TaskCache.mk [] [] 0) [sampleTask "T1", sampleTask "T2"]
      false 7).1 2 (by decide) (by decide),
   (c1_update_resolves_indices (TaskCache.mk [] [] 0) [sampleTask "T1", sampleTask "T2"]
      false 7).2 3 (Or.inr (by decide))⟩

/-- C2 counterexample: make a completed listing the most recent one (the
completed partition maps 1 to "T3" and the active partition is empty, as
after list --completed); complete_task with integer reference 1 then hands
the adapter the literal fallback "1", not the completed listing's id "T3",
because the service consults the cache with the completed flag left at its
False default. -/
theorem c2_counterexample :
    (TaskService.complete_task
        ((TaskCache.mk [] [] 0).update
          [{ id := "T3", title := "t", status := TaskStatus.completed, list_id := "L1",
             updated := none, notes := none, due := none, completed := some 3 }] true 5)
        "L1" (Sum.inr 1)).task_id = "1" ∧
    (TaskService.complete_task
        ((TaskCache.mk [] [] 0).update
          [{ id := "T3", title := "t", status := TaskStatus.completed, list_id := "L1",
             updated := none, notes := none, due := none, completed := some 3 }] true 5)
        "L1" (Sum.inr 1)).task_id ≠ "T3" :=
  ⟨rfl, by decide⟩

/-- C2 amended: the mutation commands resolve integer references only through
the active partition (get_task_id is called with its completed parameter left
at the False default). The resolution is entirely independent of the
completed partition, and on a cache whose active partition is empty an
integer reference falls back to its stringified literal, whatever the
completed partition holds. -/
theorem c2_amended_active_partition_only :
    (∀ (active cp1 cp2 : List (Int × String)) (lu1 lu2 : Nat) (lid : String)
        (ref : TaskReference),
      TaskService.complete_task (TaskCache.mk active cp1 lu1) lid ref =
        TaskService.complete_task (TaskCache.mk active cp2 lu2) lid ref) ∧
    (∀ (cp : List (Int × String)) (lu : Nat) (lid : String) (i : Int),
      (TaskService.complete_task (TaskCache.mk [] cp lu) lid (Sum.inr i)).task_id =
        toString i) := by
  constructor
  · intro active cp1 cp2 lu1 lu2 lid ref
    cases ref <;> rfl
  · intro cp lu lid i
    rfl

/-- C3: list_tasks returns the adapter's listing unchanged, and the cache it
leaves behind is exactly the update of the old cache with that listing in the
partition selected by show_completed, so immediately afterwards index i
resolves to the id of the i-th returned task. -/
theorem c3_list_tasks_refreshes_cache (api : String → Bool → List Task) (cache : TaskCache)
    (lid : String) (sc : Bool) (now : Nat) :
    (TaskService.list_tasks api cache lid sc now).1 = api lid sc ∧
    (TaskService.list_tasks api cache lid sc now).2 = cache.update (api lid sc) sc now ∧
    (∀ (i : Int) (h1 : 1 ≤ i) (h2 : i ≤ ((api lid sc).length : Int)),
      (TaskService.list_tasks api cache lid sc now).2.get_task_id (Sum.inr i) sc =
        some (((api lid sc).get ⟨(i - 1).toNat, by omega⟩).id)) :=
  ⟨rfl, rfl, fun i h1 h2 => get_task_id_update_inRange cache (api lid sc) sc now i h1 h2⟩

/-- Witness for C3: a concrete one-task adapter; the task comes back
unchanged and index 1 resolves to its id in the completed partition. -/
theorem c3_list_tasks_refreshes_cache_witness :
    (TaskService.list_tasks (fun _ _ => [sampleTask "T9"]) (TaskCache.mk [] [] 0)
        "L1" true 4).1 = [sampleTask "T9"] ∧
    (TaskService.list_tasks (fun _ _ => [sampleTask "T9"]) (TaskCache.mk [] [] 0)
        "L1" true 4).2.get_task_id (Sum.inr 1) true = some "T9" :=
  ⟨(c3_list_tasks_refreshes_cache (fun _ _ => [sampleTask "T9"]) (TaskCache.mk [] [] 0)
      "L1" true 4).1,
   (c3_list_tasks_refreshes_cache (fun _ _ => [sampleTask "T9"]) (TaskCache.mk [] [] 0)
      "L1" true 4).2.2 1 (by decide) (by decide)⟩

/-- C4: on a cold cache (both partitions empty) every mutation operation
falls back to the stringified integer reference as the literal ID handed to
the adapter; in particular complete 1 issues the remote call with ID "1". -/
theorem c4_cold_cache_literal_fallback :
    (∀ (lu : Nat) (lid : String) (i : Int),
      TaskService.get_task (TaskCache.mk [] [] lu) lid (Sum.inr i) =
        AdapterCall.mk lid (toString i) ∧
      TaskService.update_task (TaskCache.mk [] [] lu) lid (Sum.inr i) =
        AdapterCall.mk lid (toString i) ∧
      TaskService.delete_task (TaskCache.mk [] [] lu) lid (Sum.inr i) =
        AdapterCall.mk lid (toString i) ∧
      TaskService.complete_task (TaskCache.mk [] [] lu) lid (Sum.inr i) =
        AdapterCall.mk lid (toString i)) ∧
    (TaskService.complete_task (TaskCache.mk [] [] 0) "@default" (Sum.inr 1)).task_id = "1" :=
  ⟨fun _ _ _ => ⟨rfl, rfl, rfl, rfl⟩, rfl⟩

/-- C5: cache replacement is destructive per partition. After updating with
L1 and then L2 in the same partition, exactly the indices 1..len(L2) resolve,
to L2's ids; everything else resolves to nothing, and the result coincides
with updating the original cache with L2 alone, so no entry of L1 survives. -/
theorem c5_replace_destructive (c : TaskCache) (L1 L2 : List Task) (p : Bool) (n1 n2 : Nat) :
    (∀ (i : Int) (h1 : 1 ≤ i) (h2 : i ≤ (L2.length : Int)),
      ((c.update L1 p n1).update L2 p n2).get_task_id (Sum.inr i) p =
        some ((L2.get ⟨(i - 1).toNat, by omega⟩).id)) ∧
    (∀ i : Int, i < 1 ∨ (L2.length : Int) < i →
      ((c.update L1 p n1).update L2 p n2).get_task_id (Sum.inr i) p = none) ∧
    (∀ i : Int, ((c.update L1 p n1).update L2 p n2).get_task_id (Sum.inr i) p =
      (c.update L2 p n2).get_task_id (Sum.inr i) p) :=
  ⟨fun i h1 h2 => get_task_id_update_inRange (c.update L1 p n1) L2 p n2 i h1 h2,
   fun i h => get_task_id_update_outRange (c.update L1 p n1) L2 p n2 i h,
   fun i => by rw [get_task_id_update, get_task_id_update]⟩

/-- Witness for C5: replace a two-task listing by a one-task listing; index 1
now resolves to the new id and index 2, valid before, no longer resolves. -/
theorem c5_replace_destructive_witness :
    (((TaskCache.mk [] [] 0).update [sampleTask "A1", sampleTask "A2"] false 1).update
        [sampleTask "B1"] false 2).get_task_id (Sum.inr 1) false = some "B1" ∧
    (((TaskCache.mk [] [] 0).update [sampleTask "A1", sampleTask "A2"] false 1).update
        [sampleTask "B1"] false 2).get_task_id (Sum.inr 2) false = none :=
  ⟨(c5_replace_destructive (TaskCache.mk [] [] 0) [sampleTask "A1", sampleTask "A2"]
      [sampleTask "B1"] false 1 2).1 1 (by decide) (by decide),
   (c5_replace_destructive (TaskCache.mk [] [] 0) [sampleTask "A1", sampleTask "A2"]
      [sampleTask "B1"] false 1 2).2.1 2 (Or.inr (by decide))⟩

/-- C6 fails on the code: with a remote serving two pages (the first carrying
nextPageToken "token", the second carrying none), the adapter's list_tasks
issues a single request and returns only the first page's items, not the
concatenation of both pages — there is no pagination loop in
GoogleTasksAdapter.list_tasks. -/
theorem c6_no_pagination_in_adapter :
    GoogleTasksAdapter.list_tasks
        (Except.ok (TasksPage.mk ["T1"] (some "token")))
        [Except.ok (TasksPage.mk ["T2"] none)] =
      (AdapterListResult.ok ["T1"], 1) ∧
    AdapterListResult.ok ["T1"] ≠ AdapterListResult.ok ["T1", "T2"] :=
  ⟨rfl, by decide⟩

/-- C7 fails on the adapter's request paths: list_tasks translates a 500 or a
429 first response straight to APIError after a single request, with no retry
(and no RateLimitError for 429) — while the unused helper execute_with_retry
does implement exactly the claimed policy: a persistent 500 is retried with
backoff waits 1, 2, 4 and then raises APIError after 4 requests, a persistent
429 likewise ends in RateLimitError, and 400, 401 and 404 are translated
immediately after one request without retrying. -/
theorem c7_adapter_requests_not_retried :
    GoogleTasksAdapter.list_tasks (Except.error 500) [Except.ok (TasksPage.mk ["T1"] none)] =
      (AdapterListResult.apiError, 1) ∧
    GoogleTasksAdapter.list_tasks (Except.error 429) [Except.ok (TasksPage.mk ["T1"] none)] =
      (AdapterListResult.apiError, 1) ∧
    execute_with_retry (fun _ => HttpOutcome.httpError 500) 3 =
      (RetryOutcome.apiError, 4, [1, 2, 4]) ∧
    execute_with_retry (fun _ => HttpOutcome.httpError 429) 3 =
      (RetryOutcome.rateLimitError, 4, [1, 2, 4]) ∧
    execute_with_retry (fun _ => HttpOutcome.httpError 400) 3 =
      (RetryOutcome.validationError, 1, []) ∧
    execute_with_retry (fun _ => HttpOutcome.httpError 401) 3 =
      (RetryOutcome.authenticationError, 1, []) ∧
    execute_with_retry (fun _ => HttpOutcome.httpError 403) 3 =
      (RetryOutcome.authenticationError, 1, []) ∧
    execute_with_retry (fun _ => HttpOutcome.httpError 404) 3 =
      (RetryOutcome.notFoundError, 1, []) :=
  ⟨rfl, rfl, by decide, by decide, by decide, by decide, by decide, by decide⟩

/-- C8: applying the toggle pair matched to the task's starting status
returns the task to its original status, and after each single helper call of
that pair the invariant holds that the completion timestamp is present iff
the status is COMPLETED. -/
theorem c8_toggle_pair (t : Task) (now : Nat) :
    (t.status = TaskStatus.needsAction →
      completedInv (t.mark_complete now) = true ∧
      ((t.mark_complete now).mark_incomplete).status = t.status ∧
      completedInv ((t.mark_complete now).mark_incomplete) = true) ∧
    (t.status = TaskStatus.completed →
      completedInv t.mark_incomplete = true ∧
      ((t.mark_incomplete).mark_complete now).status = t.status ∧
      completedInv ((t.mark_incomplete).mark_complete now) = true) := by
  constructor
  · intro h
    simp [Task.mark_complete, Task.mark_incomplete, completedInv, h]
    decide
  · intro h
    simp [Task.mark_complete, Task.mark_incomplete, completedInv, h]
    decide

/-- Witness for C8: both starting statuses at a concrete task and timestamp. -/
theorem c8_toggle_pair_witness :
    (completedInv ((sampleTask "W").mark_complete 5) = true ∧
      (((sampleTask "W").mark_complete 5).mark_incomplete).status = (sampleTask "W").status ∧
      completedInv (((sampleTask "W").mark_complete 5).mark_incomplete) = true) ∧
    (completedInv (Task.mark_incomplete
        { sampleTask "W" with status := TaskStatus.completed, completed := some 2 }) = true ∧
      ((Task.mark_incomplete
          { sampleTask "W" with status := TaskStatus.completed, completed := some 2
          }).mark_complete 5).status =
        (Task.mk "W" "t" TaskStatus.completed "L1" none none none (some 2)).status ∧
      completedInv ((Task.mark_incomplete
          { sampleTask "W" with status := TaskStatus.completed, completed := some 2
          }).mark_complete 5) = true) :=
  ⟨(c8_toggle_pair (sampleTask "W") 5).1 rfl,
   (c8_toggle_pair
      { sampleTask "W" with status := TaskStatus.completed, completed := some 2 } 5).2 rfl⟩

/-- Rewriting a listing in which no task carries the selected id leaves it
unchanged. -/
theorem optimisticUpdate_no_match (l : List Task) (sid : String) (ns : TaskStatus)
    (h : ∀ x ∈ l, x.id ≠ sid) : optimisticUpdate l sid ns = l := by
  induction l with
  | nil => rfl
  | cons t rest ih =>
    have ht : t.id ≠ sid := h t (List.mem_cons_self t rest)
    have hrest : ∀ x ∈ rest, x.id ≠ sid := fun x hx => h x (List.mem_cons_of_mem t hx)
    simp only [optimisticUpdate, List.map] at *
    rw [if_neg ht, ih hrest]

/-- Undoing the optimistic flip restores the original listing when the task
ids are pairwise distinct and the reverted task is the one find? located. -/
theorem revert_optimistic (tasks : List Task) (sid : String) (ns : TaskStatus) (task : Task)
    (hN : (tasks.map Task.id).Nodup)
    (hfind : tasks.find? (fun t => t.id == sid) = some task) :
    revertToggle (optimisticUpdate tasks sid ns) sid task.status = tasks := by
  induction tasks with
  | nil => simp at hfind
  | cons t rest ih =>
    rw [List.map_cons, List.nodup_cons] at hN
    by_cases h : t.id = sid
    · have hpa : (fun x : Task => x.id == sid) t = true := by simp [h]
      rw [@List.find?_cons_of_pos _ (fun x : Task => x.id == sid) t rest hpa] at hfind
      injection hfind with htask
      have hnomem : ∀ x ∈ rest, x.id ≠ sid := by
        intro x hx heq
        exact hN.1 (h ▸ heq ▸ List.mem_map_of_mem Task.id hx)
      have e1 : optimisticUpdate (t :: rest) sid ns =
          Task.mk t.id t.title ns t.list_id t.updated t.notes t.due t.completed ::
            optimisticUpdate rest sid ns := by
        simp only [optimisticUpdate, List.map]
        rw [if_pos h]
      rw [e1, optimisticUpdate_no_match rest sid ns hnomem]
      simp only [revertToggle]
      rw [if_pos h, ← htask]
    · have hpa : ¬ ((fun x : Task => x.id == sid) t = true) := by simp [h]
      rw [@List.find?_cons_of_neg _ (fun x : Task => x.id == sid) t rest hpa] at hfind
      have e1 : optimisticUpdate (t :: rest) sid ns = t :: optimisticUpdate rest sid ns := by
        simp only [optimisticUpdate, List.map]
        rw [if_neg h]
      rw [e1]
      simp only [revertToggle]
      rw [if_neg h, ih hN.2 hfind]

/-- C9: the keyword argument completed_cache that _persist_toggle passes is
not a parameter of TaskService.update_task, so the call raises TypeError
before any remote work; the persist step therefore always takes the
except-branch and reverts, and a whole TUI toggle (optimistic flip followed
by the resolved persist step) leaves a listing with distinct task ids exactly
as it was. -/
theorem c9_persist_toggle_always_reverts :
    keywordsAccepted updateTaskParams persistToggleKeywordArgs = false ∧
    (∀ (tasks : List Task) (tid : String) (old : TaskStatus),
      persistToggle tasks tid old = (revertToggle tasks tid old, PersistResult.reverted)) ∧
    (∀ (tasks : List Task) (sid : String), (tasks.map Task.id).Nodup →
      toggleCompletion tasks (some sid) = tasks) := by
  refine ⟨rfl, fun tasks tid old => rfl, fun tasks sid hN => ?_⟩
  simp only [toggleCompletion]
  cases hfind : tasks.find? (fun t => t.id == sid) with
  | none => rfl
  | some task =>
    have hid : task.id = sid := by
      have h2 := List.find?_some hfind
      simpa using h2
    simp only []
    rw [hid]
    exact revert_optimistic tasks sid
      (if task.status = TaskStatus.needsAction then TaskStatus.completed
       else TaskStatus.needsAction) task hN hfind

/-- Witness for C9: a concrete two-task listing with distinct ids comes back
unchanged from a full toggle once the persist step has resolved. -/
theorem c9_persist_toggle_always_reverts_witness :
    toggleCompletion [sampleTask "a", sampleTask "b"] (some "a") =
      [sampleTask "a", sampleTask "b"] :=
  c9_persist_toggle_always_reverts.2.2 [sampleTask "a", sampleTask "b"] "a" (by decide)

/-- C10: the optimistic rewrite changes only the status field of the task(s)
carrying the selected id — erasing status, the listing is unchanged, and the
statuses change exactly at the selected id; the revert path likewise touches
only status; and the optimistic state of a task with no completion timestamp
is COMPLETED while its timestamp stays absent. -/
theorem c10_toggle_changes_only_status :
    (∀ (tasks : List Task) (sid : String) (ns : TaskStatus),
      (optimisticUpdate tasks sid ns).map (fun t => withStatus t TaskStatus.needsAction) =
        tasks.map (fun t => withStatus t TaskStatus.needsAction)) ∧
    (∀ (tasks : List Task) (sid : String) (ns : TaskStatus),
      (optimisticUpdate tasks sid ns).map Task.status =
        tasks.map (fun t => if t.id = sid then ns else t.status)) ∧
    (∀ (tasks : List Task) (tid : String) (old : TaskStatus),
      (revertToggle tasks tid old).map (fun t => withStatus t TaskStatus.needsAction) =
        tasks.map (fun t => withStatus t TaskStatus.needsAction)) ∧
    optimisticUpdate [sampleTask "N"] "N" TaskStatus.completed =
      [{ sampleTask "N" with status := TaskStatus.completed }] := by
  refine ⟨?_, ?_, ?_, rfl⟩
  · intro tasks sid ns
    induction tasks with
    | nil => rfl
    | cons t rest ih =>
      simp only [optimisticUpdate, List.map_cons] at *
      by_cases h : t.id = sid
      · rw [if_pos h, ih]
        rfl
      · rw [if_neg h, ih]
  · intro tasks sid ns
    induction tasks with
    | nil => rfl
    | cons t rest ih =>
      simp only [optimisticUpdate, List.map_cons] at *
      by_cases h : t.id = sid
      · rw [if_pos h, if_pos h, ih]
      · rw [if_neg h, if_neg h, ih]
  · intro tasks tid old
    induction tasks with
    | nil => rfl
    | cons t rest ih =>
      simp only [revertToggle] at *
      by_cases h : t.id = tid
      · rw [if_pos h, List.map_cons, List.map_cons]
        rfl
      · rw [if_neg h, List.map_cons, List.map_cons, ih]

end GTasks
